import Mathlib

/-!
# NecoFace watch face: a shallow embedding of `src/main.c`

The program is a single C file of callbacks registered with the host
framework.  Every callback is modelled as a pure function on an explicit
`State` holding the file-level and function-level `static` variables of the
program together with the observable effects of the host calls it makes
(texts handed to the text layers, log entries, outbound messages, live
handles).

Conventions.
* A C string is the list of its characters before the terminating NUL.
* C `int` fields are `Int`; the `%` of C is `Int.tmod`.
* Host calls are modelled as succeeding; colours, fonts, alignment and frames
  of the layers are not part of the state because no callback reads them.
-/

namespace NecoFace

/-! ## Data model -/

/-- The characters of a C string, terminator excluded. -/
abbrev CString := List Char

/-- Macro `KEY_TEMPERATURE`, defined as 0. -/
def KEY_TEMPERATURE : Nat := 0

/-- Macro `KEY_CONDITIONS`, defined as 1. -/
def KEY_CONDITIONS : Nat := 1

/-- The two fields of `struct tm` that the program reads. -/
structure Tm where
  tm_hour : Int
  tm_min : Int
deriving DecidableEq, Repr

/-- What `update_time` reads from the host: `localtime(time(NULL))` and
`clock_is_24h_style()`. -/
structure Host where
  now : Tm
  clock_is_24h_style : Bool
deriving DecidableEq, Repr

/-- The `char *` handed to `text_layer_set_text`.  The host keeps the pointer
and does not copy, so a layer shows whatever the pointed-to buffer holds. -/
inductive TextRef
  | null
  | literal (s : CString)
  | hour_buffer
  | minute_buffer
  | temperature_buffer
  | conditions_buffer
deriving DecidableEq, Repr

/-- The handles kept in the file-level `static` variables. -/
inductive Handle
  | s_hour_layer
  | s_minute_layer
  | s_temp_layer
  | s_weather_layer
  | s_time_font
  | s_weather_font
deriving DecidableEq, Repr

/-- Levels used with `APP_LOG`. -/
inductive AppLogLevel
  | error
  | info
deriving DecidableEq, Repr

/-- One `APP_LOG` call: its level and its formatted message. -/
structure LogEntry where
  level : AppLogLevel
  text : CString
deriving DecidableEq, Repr

/-- Tuple types of the host dictionary format. -/
inductive TupleType
  | byte_array
  | cstring
  | uint
  | int
deriving DecidableEq, Repr

/-- A tuple written into the outbound dictionary. -/
structure WrittenTuple where
  key : Nat
  type : TupleType
  length : Nat
  value : Nat
deriving DecidableEq, Repr

/-- An outbound dictionary: its tuples in writing order. -/
abbrev Dictionary := List WrittenTuple

/-- An inbound tuple as the callback reads it: its key and the two views of the
value union that the source uses, `value->int32` and `value->cstring`. -/
structure Tuple where
  key : Nat
  int32 : Int
  cstring : CString
deriving DecidableEq, Repr

/-- An inbound message: the tuples in the order `dict_read_first` /
`dict_read_next` yield them. -/
abbrev Message := List Tuple

/-- The failure reason handed to the drop / failure callbacks (the code of the
host enumeration). -/
abbrev AppMessageResult := Nat

/-- Program state: the `static` buffers, the text pointer of each of the four
text layers, the handles that are live, the log and the outbox. -/
structure State where
  hour_buffer : CString
  minute_buffer : CString
  temperature_buffer : CString
  conditions_buffer : CString
  hour_text : TextRef
  minute_text : TextRef
  temp_text : TextRef
  weather_text : TextRef
  live : List Handle
  log : List LogEntry
  outbox : Option Dictionary
  sent : List Dictionary
deriving DecidableEq, Repr

/-- State at program start: `hour_buffer` and `minute_buffer` are initialised
with `"00"`, the two weather buffers are zero-initialised statics, nothing has
been created, logged or sent. -/
def initial_state : State where
  hour_buffer := ['0', '0']
  minute_buffer := ['0', '0']
  temperature_buffer := []
  conditions_buffer := []
  hour_text := TextRef.null
  minute_text := TextRef.null
  temp_text := TextRef.null
  weather_text := TextRef.null
  live := []
  log := []
  outbox := none
  sent := []

/-- The string a text pointer designates in state `s`. -/
def deref (s : State) : TextRef → CString
  | TextRef.null => []
  | TextRef.literal l => l
  | TextRef.hour_buffer => s.hour_buffer
  | TextRef.minute_buffer => s.minute_buffer
  | TextRef.temperature_buffer => s.temperature_buffer
  | TextRef.conditions_buffer => s.conditions_buffer

/-- Text shown by `s_hour_layer`. -/
def shown_hour (s : State) : CString := deref s s.hour_text

/-- Text shown by `s_minute_layer`. -/
def shown_minute (s : State) : CString := deref s s.minute_text

/-- Text shown by `s_temp_layer`. -/
def shown_temp (s : State) : CString := deref s s.temp_text

/-- Text shown by `s_weather_layer`. -/
def shown_weather (s : State) : CString := deref s s.weather_text

/-! ## Library and host calls -/

/-- Conversion `%d` of `printf`: signed decimal. -/
def fmt_d (v : Int) : CString :=
  if v < 0 then '-' :: Nat.toDigits 10 v.natAbs else Nat.toDigits 10 v.toNat

/-- Decimal number zero-padded to two digits, as the `strftime` conversions
`%H`, `%I` and `%M` print it. -/
def fmt_02d (n : Nat) : CString :=
  List.replicate (2 - (Nat.toDigits 10 n).length) '0' ++ Nat.toDigits 10 n

/-- The `strftime` conversions used by the program. -/
inductive TimeConv
  | H
  | I
  | M
deriving DecidableEq, Repr

/-- Text of one `strftime` conversion: `%H` hour 00-23, `%I` hour 01-12,
`%M` minute 00-59. -/
def strftime_conv (c : TimeConv) (tm : Tm) : CString :=
  match c with
  | TimeConv.H => fmt_02d tm.tm_hour.toNat
  | TimeConv.I =>
      if Int.tmod tm.tm_hour 12 = 0 then fmt_02d 12
      else fmt_02d (Int.tmod tm.tm_hour 12).toNat
  | TimeConv.M => fmt_02d tm.tm_min.toNat

/-- Call `strftime(buf, maxsize, "%c", tm)`: the text is stored when it fits with
its terminator; otherwise the call fails (the buffer is kept as it was). -/
def strftime (buf : CString) (maxsize : Nat) (c : TimeConv) (tm : Tm) : CString :=
  if (strftime_conv c tm).length + 1 ≤ maxsize then strftime_conv c tm else buf

/-- Call `snprintf(buf, size, ...)` where `out` is the fully formatted text: at most
`size - 1` characters are stored, followed by the terminator. -/
def snprintf (buf : CString) (size : Nat) (out : CString) : CString :=
  if size = 0 then buf else out.take (size - 1)

/-- The cast `(int)` applied to a `uint32_t`. -/
def uint32_to_int (k : Nat) : Int :=
  if k % 2 ^ 32 < 2 ^ 31 then ((k % 2 ^ 32 : Nat) : Int)
  else ((k % 2 ^ 32 : Nat) : Int) - 2 ^ 32

/-- Call `APP_LOG(level, ...)` with the formatted message `text`. -/
def app_log (s : State) (level : AppLogLevel) (text : CString) : State :=
  { s with log := s.log ++ [⟨level, text⟩] }

/-- Calls `text_layer_create`, `fonts_load_custom_font`: the handle becomes live. -/
def create (s : State) (h : Handle) : State :=
  { s with live := s.live ++ [h] }

/-- Calls `text_layer_destroy`, `fonts_unload_custom_font`: the handle is released. -/
def release (s : State) (h : Handle) : State :=
  { s with live := s.live.filter (fun x => decide (x ≠ h)) }

/-- Call `app_message_outbox_begin(&iter)`: an empty dictionary is opened. -/
def app_message_outbox_begin (s : State) : State :=
  { s with outbox := some [] }

/-- Call `dict_write_uint8(iter, key, value)`: appends a one-byte unsigned tuple. -/
def dict_write_uint8 (s : State) (key : Nat) (value : Nat) : State :=
  { s with outbox := s.outbox.map (fun d => d ++ [⟨key, TupleType.uint, 1, value % 256⟩]) }

/-- Call `app_message_outbox_send()`: the open dictionary is sent. -/
def app_message_outbox_send (s : State) : State :=
  match s.outbox with
  | some d => { s with outbox := none, sent := s.sent ++ [d] }
  | none => s

/-! ## The program -/

/-- Function `update_time` (main.c 14-36). -/
def update_time (host : Host) (s : State) : State :=
  let s1 : State :=
    if host.clock_is_24h_style = true then
      { s with hour_buffer := strftime s.hour_buffer 3 TimeConv.H host.now }
    else
      { s with hour_buffer := strftime s.hour_buffer 3 TimeConv.I host.now }
  let s2 : State := { s1 with minute_buffer := strftime s1.minute_buffer 3 TimeConv.M host.now }
  let s3 : State := { s2 with hour_text := TextRef.hour_buffer }
  { s3 with minute_text := TextRef.minute_buffer }

/-- Function `main_window_load` (main.c 38-81). -/
def main_window_load (host : Host) (s : State) : State :=
  let s := create s Handle.s_time_font
  let s := create s Handle.s_weather_font
  let s := create s Handle.s_hour_layer
  let s : State := { s with hour_text := TextRef.literal "00".toList }
  let s := create s Handle.s_minute_layer
  let s : State := { s with minute_text := TextRef.literal "00".toList }
  let s := create s Handle.s_temp_layer
  let s : State := { s with temp_text := TextRef.literal "@ loading @".toList }
  let s := create s Handle.s_weather_layer
  let s : State := { s with weather_text := TextRef.literal "@@@@".toList }
  update_time host s

/-- Function `main_window_unload` (main.c 83-91). -/
def main_window_unload (s : State) : State :=
  let s := release s Handle.s_hour_layer
  let s := release s Handle.s_minute_layer
  let s := release s Handle.s_temp_layer
  let s := release s Handle.s_weather_layer
  release s Handle.s_time_font

/-- Function `tick_handler` (main.c 93-107). -/
def tick_handler (host : Host) (tick_time : Tm) (s : State) : State :=
  let s := update_time host s
  if Int.tmod tick_time.tm_min 10 = 0 then
    let s := app_message_outbox_begin s
    let s := dict_write_uint8 s 0 0
    app_message_outbox_send s
  else s

/-- Body of the `while` loop of `inbox_received_callback` for one tuple
(main.c 121-131). -/
def inbox_step (s : State) (t : Tuple) : State :=
  if t.key = KEY_TEMPERATURE then
    { s with temperature_buffer := snprintf s.temperature_buffer 8 (fmt_d t.int32 ++ ['f']) }
  else if t.key = KEY_CONDITIONS then
    { s with conditions_buffer := snprintf s.conditions_buffer 32 t.cstring }
  else
    app_log s AppLogLevel.error
      ("Key ".toList ++ fmt_d (uint32_to_int t.key) ++ " not recognized!".toList)

/-- Function `inbox_received_callback` (main.c 110-140). -/
def inbox_received_callback (msg : Message) (s : State) : State :=
  let s := msg.foldl inbox_step s
  let s : State := { s with temp_text := TextRef.temperature_buffer }
  { s with weather_text := TextRef.conditions_buffer }

/-- Function `inbox_dropped_callback` (main.c 142-144). -/
def inbox_dropped_callback (_reason : AppMessageResult) (s : State) : State :=
  app_log s AppLogLevel.error "Message dropped!".toList

/-- Function `outbox_failed_callback` (main.c 146-148). -/
def outbox_failed_callback (_reason : AppMessageResult) (s : State) : State :=
  app_log s AppLogLevel.error "Outbox send failed!".toList

/-- Function `outbox_sent_callback` (main.c 150-152). -/
def outbox_sent_callback (s : State) : State :=
  app_log s AppLogLevel.info "Outbox send success!".toList

/-! ## Reference renderings used in the statements -/

/-- The two-digit zero-padded rendering of a number below 100, in the words of
the specification: the tens digit followed by the units digit. -/
def two_digit_zero_padded (n : Nat) : CString :=
  [Char.ofNat (48 + n / 10), Char.ofNat (48 + n % 10)]

/-- The one tuple of a weather request: key 0, one unsigned byte, value 0. -/
def weather_request : Dictionary := [⟨0, TupleType.uint, 1, 0⟩]

/-- The messages sent during a tick: what the handler appended to `sent`. -/
def sent_by_tick (host : Host) (tick_time : Tm) (s : State) : List Dictionary :=
  (tick_handler host tick_time s).sent.drop s.sent.length

/-- The text of the log entry written for an unrecognised key: the format
`"Key %d not recognized!"` applied to `(int)t->key`. -/
def unrecognized_entry (t : Tuple) : LogEntry :=
  ⟨AppLogLevel.error,
    "Key ".toList ++ fmt_d (uint32_to_int t.key) ++ " not recognized!".toList⟩

/-- The number a string of decimal digits denotes, read left to right. -/
def decimal_value (ds : CString) : Nat :=
  ds.foldl (fun a c => a * 10 + (c.toNat - 48)) 0

/-- Whether a tuple's key is neither `KEY_TEMPERATURE` nor `KEY_CONDITIONS`. -/
def unrecognized (t : Tuple) : Bool :=
  decide (t.key ≠ KEY_TEMPERATURE ∧ t.key ≠ KEY_CONDITIONS)

/-- The last tuple of a message that carries key `k`, if any. -/
def last_with_key (k : Nat) (msg : Message) : Option Tuple :=
  msg.reverse.find? (fun t => decide (t.key = k))

/-- The temperature string retained from a sequence of messages given latest
first: the text written for the most recent message carrying key 0, or the
empty string when none carried it. -/
def retained_temperature : List Message → CString
  | [] => []
  | m :: earlier =>
    match last_with_key KEY_TEMPERATURE m with
    | some t => (fmt_d t.int32 ++ ['f']).take 7
    | none => retained_temperature earlier

/-- The conditions string retained from a sequence of messages given latest
first: the text written for the most recent message carrying key 1, or the
empty string when none carried it. -/
def retained_conditions : List Message → CString
  | [] => []
  | m :: earlier =>
    match last_with_key KEY_CONDITIONS m with
    | some t => t.cstring.take 31
    | none => retained_conditions earlier

/-- The inbox callback run on each message of a sequence, earliest first. -/
def receive_all (msgs : List Message) (s : State) : State :=
  msgs.foldl (fun st m => inbox_received_callback m st) s

/-! ## Auxiliary lemmas -/

theorem fmt_02d_eq_two_digit (n : Nat) (h : n < 60) :
    fmt_02d n = two_digit_zero_padded n := by
  interval_cases n <;> decide

theorem strftime_conv_I (h m : Nat) :
    strftime_conv TimeConv.I ⟨h, m⟩ = if h % 12 = 0 then fmt_02d 12 else fmt_02d (h % 12) := by
  have e : Int.tmod (h : Int) 12 = ((h % 12 : Nat) : Int) := by
    rw [Int.tmod_eq_emod (by omega) (by decide)]
    omega
  simp only [strftime_conv, e, Int.toNat_ofNat]
  norm_cast

theorem update_time_sent (host : Host) (s : State) :
    (update_time host s).sent = s.sent := by
  unfold update_time
  split <;> rfl

theorem update_time_hour (host : Host) (s : State) :
    shown_hour (update_time host s) =
      strftime s.hour_buffer 3
        (if host.clock_is_24h_style = true then TimeConv.H else TimeConv.I) host.now := by
  unfold update_time shown_hour
  split <;> rfl

theorem update_time_minute (host : Host) (s : State) :
    shown_minute (update_time host s) = strftime s.minute_buffer 3 TimeConv.M host.now := by
  unfold update_time shown_minute
  split <;> rfl

theorem tick_handler_sent (host : Host) (tick_time : Tm) (s : State) :
    (tick_handler host tick_time s).sent =
      s.sent ++ (if Int.tmod tick_time.tm_min 10 = 0 then [weather_request] else []) := by
  unfold tick_handler
  split
  · simp [app_message_outbox_send, dict_write_uint8, app_message_outbox_begin,
      update_time_sent, weather_request]
  · simp [update_time_sent]

theorem sent_by_tick_eq (host : Host) (tick_time : Tm) (s : State) :
    sent_by_tick host tick_time s =
      if Int.tmod tick_time.tm_min 10 = 0 then [weather_request] else [] := by
  unfold sent_by_tick
  rw [tick_handler_sent]
  simp

/-! ## Claims about the tick handler and the time display -/

/-- C1: for a tick whose minute m satisfies 0 ≤ m ≤ 59, the handler sends a
weather request exactly when m mod 10 = 0, that is when m is one of 0, 10, 20,
30, 40, 50, and it never sends more than one message in a tick. -/
theorem tick_handler_sends_iff_minute_mod_10 (host : Host) (tick_time : Tm) (s : State)
    (h0 : 0 ≤ tick_time.tm_min) (h59 : tick_time.tm_min ≤ 59) :
    (tick_handler host tick_time s).sent = s.sent ++ sent_by_tick host tick_time s ∧
    (sent_by_tick host tick_time s).length ≤ 1 ∧
    ((sent_by_tick host tick_time s).length = 1 ↔ tick_time.tm_min % 10 = 0) ∧
    (tick_time.tm_min % 10 = 0 ↔ tick_time.tm_min ∈ ([0, 10, 20, 30, 40, 50] : List Int)) := by
  have hmod : Int.tmod tick_time.tm_min 10 = tick_time.tm_min % 10 :=
    Int.tmod_eq_emod h0 (by decide)
  refine ⟨?_, ?_, ?_, ?_⟩
  · rw [sent_by_tick_eq, tick_handler_sent]
  · rw [sent_by_tick_eq]
    split <;> simp
  · rw [sent_by_tick_eq, hmod]
    split <;> simp [*]
  · simp only [List.mem_cons, List.mem_singleton, List.not_mem_nil, or_false]
    omega

/-- C1 at minute 20 (a request is sent) from the initial state. -/
theorem tick_handler_sends_iff_minute_mod_10_witness :
    (tick_handler ⟨⟨9, 20⟩, true⟩ ⟨9, 20⟩ initial_state).sent
        = initial_state.sent ++ sent_by_tick ⟨⟨9, 20⟩, true⟩ ⟨9, 20⟩ initial_state ∧
      (sent_by_tick ⟨⟨9, 20⟩, true⟩ ⟨9, 20⟩ initial_state).length ≤ 1 ∧
      ((sent_by_tick ⟨⟨9, 20⟩, true⟩ ⟨9, 20⟩ initial_state).length = 1 ↔ (20 : Int) % 10 = 0) ∧
      ((20 : Int) % 10 = 0 ↔ (20 : Int) ∈ ([0, 10, 20, 30, 40, 50] : List Int)) :=
  tick_handler_sends_iff_minute_mod_10 ⟨⟨9, 20⟩, true⟩ ⟨9, 20⟩ initial_state
    (by decide) (by decide)

/-- C6: every message the tick handler sends holds exactly one tuple, with key
0 and the unsigned 8-bit value 0, whatever the tick time, the host clock and
the state. -/
theorem tick_handler_message_is_weather_request (host : Host) (tick_time : Tm) (s : State)
    (d : Dictionary) (hd : d ∈ sent_by_tick host tick_time s) :
    d = [⟨0, TupleType.uint, 1, 0⟩] ∧ d.length = 1 := by
  rw [sent_by_tick_eq] at hd
  split at hd
  · simp only [List.mem_singleton] at hd
    subst hd
    exact ⟨rfl, rfl⟩
  · simp at hd

/-- C6 at minute 30: the message sent is the single tuple (0, uint8 0). -/
theorem tick_handler_message_is_weather_request_witness :
    ([⟨0, TupleType.uint, 1, 0⟩] : Dictionary) ∈
        sent_by_tick ⟨⟨7, 30⟩, false⟩ ⟨7, 30⟩ initial_state ∧
      (([⟨0, TupleType.uint, 1, 0⟩] : Dictionary) = [⟨0, TupleType.uint, 1, 0⟩] ∧
        ([⟨0, TupleType.uint, 1, 0⟩] : Dictionary).length = 1) :=
  ⟨by decide,
    tick_handler_message_is_weather_request ⟨⟨7, 30⟩, false⟩ ⟨7, 30⟩ initial_state
      [⟨0, TupleType.uint, 1, 0⟩] (by decide)⟩

/-- C5: for local hour h ≤ 23 and minute m ≤ 59, `update_time` shows h
zero-padded to two digits in 24-hour style; in 12-hour style it shows 12 when
h mod 12 = 0 and h mod 12 otherwise, zero-padded to two digits; in both styles
the minute text is m zero-padded to two digits. -/
theorem update_time_formats_hour_and_minute (s : State) (h m : Nat)
    (hh : h ≤ 23) (hm : m ≤ 59) :
    shown_hour (update_time ⟨⟨h, m⟩, true⟩ s) = two_digit_zero_padded h ∧
    shown_hour (update_time ⟨⟨h, m⟩, false⟩ s) =
      (if h % 12 = 0 then two_digit_zero_padded 12 else two_digit_zero_padded (h % 12)) ∧
    shown_minute (update_time ⟨⟨h, m⟩, true⟩ s) = two_digit_zero_padded m ∧
    shown_minute (update_time ⟨⟨h, m⟩, false⟩ s) = two_digit_zero_padded m := by
  have hmin : strftime s.minute_buffer 3 TimeConv.M ⟨h, m⟩ = two_digit_zero_padded m := by
    simp only [strftime, strftime_conv, Int.toNat_ofNat]
    rw [fmt_02d_eq_two_digit m (by omega)]
    simp [two_digit_zero_padded]
  refine ⟨?_, ?_, ?_, ?_⟩
  · rw [update_time_hour]
    simp only [strftime, strftime_conv, Int.toNat_ofNat, if_true]
    rw [fmt_02d_eq_two_digit h (by omega)]
    simp [two_digit_zero_padded]
  · rw [update_time_hour]
    have h12 : h % 12 < 60 := by omega
    simp only [strftime, strftime_conv_I, Bool.false_eq_true, if_false]
    split
    · rfl
    · rw [fmt_02d_eq_two_digit _ h12]
      simp [two_digit_zero_padded]
  · rw [update_time_minute]
    exact hmin
  · rw [update_time_minute]
    exact hmin

/-- C5 at the boundary hours 00, 12 and 23 (minute 05): "00", "12", "23" in
24-hour style and "12", "12", "11" in 12-hour style. -/
theorem update_time_formats_hour_and_minute_witness :
    (shown_hour (update_time ⟨⟨0, 5⟩, true⟩ initial_state) = "00".toList ∧
      shown_hour (update_time ⟨⟨0, 5⟩, false⟩ initial_state) = "12".toList ∧
      shown_minute (update_time ⟨⟨0, 5⟩, true⟩ initial_state) = "05".toList) ∧
    (shown_hour (update_time ⟨⟨12, 5⟩, true⟩ initial_state) = "12".toList ∧
      shown_hour (update_time ⟨⟨12, 5⟩, false⟩ initial_state) = "12".toList) ∧
    (shown_hour (update_time ⟨⟨23, 5⟩, true⟩ initial_state) = "23".toList ∧
      shown_hour (update_time ⟨⟨23, 5⟩, false⟩ initial_state) = "11".toList) :=
  ⟨⟨(update_time_formats_hour_and_minute initial_state 0 5 (by decide) (by decide)).1,
      (update_time_formats_hour_and_minute initial_state 0 5 (by decide) (by decide)).2.1,
      (update_time_formats_hour_and_minute initial_state 0 5 (by decide) (by decide)).2.2.1⟩,
    ⟨(update_time_formats_hour_and_minute initial_state 12 5 (by decide) (by decide)).1,
      (update_time_formats_hour_and_minute initial_state 12 5 (by decide) (by decide)).2.1⟩,
    ⟨(update_time_formats_hour_and_minute initial_state 23 5 (by decide) (by decide)).1,
      (update_time_formats_hour_and_minute initial_state 23 5 (by decide) (by decide)).2.1⟩⟩

theorem deref_app_log (s : State) (level : AppLogLevel) (text : CString) (r : TextRef) :
    deref (app_log s level text) r = deref s r := by
  cases r <;> rfl

theorem update_time_live (host : Host) (s : State) :
    (update_time host s).live = s.live := by
  unfold update_time
  split <;> rfl

theorem update_time_temperature (host : Host) (s : State) :
    (update_time host s).temperature_buffer = s.temperature_buffer := by
  unfold update_time
  split <;> rfl

theorem update_time_conditions (host : Host) (s : State) :
    (update_time host s).conditions_buffer = s.conditions_buffer := by
  unfold update_time
  split <;> rfl

theorem main_window_load_live (host : Host) (s : State) :
    (main_window_load host s).live =
      s.live ++ [Handle.s_time_font, Handle.s_weather_font, Handle.s_hour_layer,
        Handle.s_minute_layer, Handle.s_temp_layer, Handle.s_weather_layer] := by
  unfold main_window_load
  simp [update_time_live, create]

theorem main_window_load_buffers (host : Host) (s : State) :
    (main_window_load host s).temperature_buffer = s.temperature_buffer ∧
    (main_window_load host s).conditions_buffer = s.conditions_buffer := by
  unfold main_window_load
  simp only [update_time_temperature, update_time_conditions, create]
  exact ⟨trivial, trivial⟩

/-! ## Lemmas about the inbox loop -/

theorem exists_last_split (p : Tuple → Prop) (msg : Message) (h : ∃ u ∈ msg, p u) :
    ∃ pre t post, msg = pre ++ t :: post ∧ p t ∧ ∀ u ∈ post, ¬ p u := by
  induction msg with
  | nil => simp at h
  | cons a rest ih =>
    by_cases hr : ∃ u ∈ rest, p u
    · obtain ⟨pre, t, post, e, ht, hp⟩ := ih hr
      exact ⟨a :: pre, t, post, by rw [e]; rfl, ht, hp⟩
    · obtain ⟨u, hu, hpu⟩ := h
      rcases List.mem_cons.mp hu with e | hmem
      · subst e
        exact ⟨[], u, rest, rfl, hpu, fun v hv hpv => hr ⟨v, hv, hpv⟩⟩
      · exact absurd ⟨u, hmem, hpu⟩ hr

theorem inbox_step_temperature (s : State) (t : Tuple) :
    (inbox_step s t).temperature_buffer =
      if t.key = KEY_TEMPERATURE then (fmt_d t.int32 ++ ['f']).take 7
      else s.temperature_buffer := by
  unfold inbox_step
  split
  · simp [snprintf]
  · split <;> simp [app_log]

theorem inbox_step_conditions (s : State) (t : Tuple) :
    (inbox_step s t).conditions_buffer =
      if t.key = KEY_CONDITIONS then t.cstring.take 31 else s.conditions_buffer := by
  unfold inbox_step
  split
  · rename_i h
    have : t.key ≠ KEY_CONDITIONS := by rw [h]; decide
    simp [this]
  · split <;> simp [app_log, snprintf, *]

theorem inbox_step_log (s : State) (t : Tuple) :
    (inbox_step s t).log =
      s.log ++ (if unrecognized t = true then [unrecognized_entry t] else []) := by
  unfold inbox_step unrecognized
  split
  · simp [*]
  · split
    · simp [*]
    · simp [app_log, unrecognized_entry, *]

theorem foldl_temperature_frame (post : Message) (s : State)
    (h : ∀ u ∈ post, u.key ≠ KEY_TEMPERATURE) :
    (post.foldl inbox_step s).temperature_buffer = s.temperature_buffer := by
  induction post generalizing s with
  | nil => rfl
  | cons a rest ih =>
    rw [List.foldl_cons, ih _ (fun u hu => h u (List.mem_cons_of_mem _ hu)),
      inbox_step_temperature, if_neg (h a (List.mem_cons_self _ _))]

theorem foldl_conditions_frame (post : Message) (s : State)
    (h : ∀ u ∈ post, u.key ≠ KEY_CONDITIONS) :
    (post.foldl inbox_step s).conditions_buffer = s.conditions_buffer := by
  induction post generalizing s with
  | nil => rfl
  | cons a rest ih =>
    rw [List.foldl_cons, ih _ (fun u hu => h u (List.mem_cons_of_mem _ hu)),
      inbox_step_conditions, if_neg (h a (List.mem_cons_self _ _))]

theorem foldl_log (msg : Message) (s : State) :
    (msg.foldl inbox_step s).log = s.log ++ (msg.filter unrecognized).map unrecognized_entry := by
  induction msg generalizing s with
  | nil => simp
  | cons a rest ih =>
    rw [List.foldl_cons, ih, inbox_step_log]
    cases h : unrecognized a <;> simp [List.filter_cons, h]

theorem inbox_shown_temp (msg : Message) (s : State) :
    shown_temp (inbox_received_callback msg s) =
      (msg.foldl inbox_step s).temperature_buffer := rfl

theorem inbox_shown_weather (msg : Message) (s : State) :
    shown_weather (inbox_received_callback msg s) =
      (msg.foldl inbox_step s).conditions_buffer := rfl

theorem toDigits_length_le (n e : Nat) (h : n < 10 ^ e) (he : 0 < e) :
    (Nat.toDigits 10 n).length ≤ e :=
  Nat.toDigitsCore_length 10 (by decide) (n + 1) n e h he

theorem fmt_temperature_length (v : Int) (hlo : -99999 ≤ v) (hhi : v ≤ 999999) :
    (fmt_d v ++ ['f']).length ≤ 7 := by
  unfold fmt_d
  split
  · have : (Nat.toDigits 10 v.natAbs).length ≤ 5 :=
      toDigits_length_le _ 5 (by omega) (by decide)
    simp only [List.length_append, List.length_cons, List.length_nil]
    omega
  · have : (Nat.toDigits 10 v.toNat).length ≤ 6 :=
      toDigits_length_le _ 6 (by omega) (by decide)
    simp only [List.length_append, List.length_cons, List.length_nil]
    omega

theorem digitChar_toNat (k : Nat) (h : k < 10) : (Nat.digitChar k).toNat - 48 = k := by
  interval_cases k <;> decide

theorem digitChar_ne_minus (k : Nat) (h : k < 10) : Nat.digitChar k ≠ '-' := by
  interval_cases k <;> decide

theorem decimal_value_toDigitsCore (fuel : Nat) :
    ∀ (n : Nat) (ds : CString), n < fuel →
      decimal_value (Nat.toDigitsCore 10 fuel n ds) =
        ds.foldl (fun a c => a * 10 + (c.toNat - 48)) n := by
  induction fuel with
  | zero => intro n ds h; omega
  | succ fuel ih =>
    intro n ds h
    have hd : (Nat.digitChar (n % 10)).toNat - 48 = n % 10 :=
      digitChar_toNat _ (Nat.mod_lt _ (by decide))
    unfold Nat.toDigitsCore
    by_cases h0 : n / 10 = 0
    · simp only [h0, if_true, decimal_value, List.foldl_cons, hd]
      congr 1
      omega
    · simp only [h0, if_false]
      rw [ih (n / 10) _ (by omega), List.foldl_cons, hd]
      congr 1
      omega

theorem decimal_value_toDigits (n : Nat) : decimal_value (Nat.toDigits 10 n) = n :=
  decimal_value_toDigitsCore (n + 1) n [] (Nat.lt_succ_self n)

theorem toDigitsCore_no_minus (fuel : Nat) :
    ∀ (n : Nat) (ds : CString), '-' ∈ Nat.toDigitsCore 10 fuel n ds → '-' ∈ ds := by
  induction fuel with
  | zero => intro n ds h; exact h
  | succ fuel ih =>
    intro n ds h
    have hd : Nat.digitChar (n % 10) ≠ '-' := digitChar_ne_minus _ (Nat.mod_lt _ (by decide))
    unfold Nat.toDigitsCore at h
    by_cases h0 : n / 10 = 0
    · simp only [h0, if_true] at h
      rcases List.mem_cons.mp h with e | hm
      · exact absurd e.symm hd
      · exact hm
    · simp only [h0, if_false] at h
      rcases List.mem_cons.mp (ih _ _ h) with e | hm
      · exact absurd e.symm hd
      · exact hm

theorem toDigits_ne_minus_cons (n : Nat) (ds : CString) : Nat.toDigits 10 n ≠ '-' :: ds := by
  intro h
  have hm : '-' ∈ Nat.toDigits 10 n := by rw [h]; exact List.mem_cons_self _ _
  have := toDigitsCore_no_minus (n + 1) n [] hm
  simp at this

theorem fmt_d_injective (a b : Int) (h : fmt_d a = fmt_d b) : a = b := by
  unfold fmt_d at h
  by_cases ha : a < 0 <;> by_cases hb : b < 0
  · simp only [ha, hb, if_true] at h
    have e := congrArg decimal_value (List.cons.inj h).2
    rw [decimal_value_toDigits, decimal_value_toDigits] at e
    omega
  · simp only [ha, hb, if_true, if_false] at h
    exact absurd h.symm (toDigits_ne_minus_cons _ _)
  · simp only [ha, hb, if_true, if_false] at h
    exact absurd h (toDigits_ne_minus_cons _ _)
  · simp only [ha, hb, if_false] at h
    have e := congrArg decimal_value h
    rw [decimal_value_toDigits, decimal_value_toDigits] at e
    omega

theorem uint32_to_int_injective (j k : Nat) (hj : j < 2 ^ 32) (hk : k < 2 ^ 32)
    (h : uint32_to_int j = uint32_to_int k) : j = k := by
  unfold uint32_to_int at h
  rw [Nat.mod_eq_of_lt hj, Nat.mod_eq_of_lt hk] at h
  split at h <;> split at h <;> omega

/-! ## Claims about the inbox callback -/

/-- C2: when a message holds a tuple with key 0, let t be the last such tuple;
after the inbox callback the temperature field shows the first 7 characters of
the signed decimal rendering of t's int32 value followed by 'f'.  The text never
exceeds 7 characters and is the whole string when -99999 ≤ v ≤ 999999. -/
theorem inbox_temperature_text (s : State) (msg : Message)
    (h : ∃ u ∈ msg, u.key = KEY_TEMPERATURE) :
    ∃ pre t post, msg = pre ++ t :: post ∧ t.key = KEY_TEMPERATURE ∧
      (∀ u ∈ post, u.key ≠ KEY_TEMPERATURE) ∧
      shown_temp (inbox_received_callback msg s) = (fmt_d t.int32 ++ ['f']).take 7 ∧
      (shown_temp (inbox_received_callback msg s)).length ≤ 7 ∧
      (-99999 ≤ t.int32 → t.int32 ≤ 999999 →
        shown_temp (inbox_received_callback msg s) = fmt_d t.int32 ++ ['f']) := by
  obtain ⟨pre, t, post, e, hk, hpost⟩ := exists_last_split (fun u => u.key = KEY_TEMPERATURE) msg h
  have hshown : shown_temp (inbox_received_callback msg s) = (fmt_d t.int32 ++ ['f']).take 7 := by
    rw [inbox_shown_temp, e, List.foldl_append, List.foldl_cons,
      foldl_temperature_frame post _ hpost, inbox_step_temperature, if_pos hk]
  refine ⟨pre, t, post, e, hk, hpost, hshown, ?_, ?_⟩
  · rw [hshown, List.length_take]
    exact Nat.min_le_left _ _
  · intro hlo hhi
    rw [hshown]
    exact List.take_of_length_le (fmt_temperature_length _ hlo hhi)

/-- C2 on a message with two key-0 tuples: the last one, -99999, is shown in
full as "-99999f". -/
theorem inbox_temperature_text_witness :
    (∃ u ∈ ([⟨0, 72, []⟩, ⟨5, 0, []⟩, ⟨0, -99999, []⟩] : Message), u.key = KEY_TEMPERATURE) ∧
    shown_temp (inbox_received_callback [⟨0, 72, []⟩, ⟨5, 0, []⟩, ⟨0, -99999, []⟩]
      initial_state) = "-99999f".toList ∧
    ∃ pre t post, ([⟨0, 72, []⟩, ⟨5, 0, []⟩, ⟨0, -99999, []⟩] : Message) = pre ++ t :: post ∧
      t.key = KEY_TEMPERATURE ∧ (∀ u ∈ post, u.key ≠ KEY_TEMPERATURE) ∧
      shown_temp (inbox_received_callback [⟨0, 72, []⟩, ⟨5, 0, []⟩, ⟨0, -99999, []⟩]
        initial_state) = (fmt_d t.int32 ++ ['f']).take 7 ∧
      (shown_temp (inbox_received_callback [⟨0, 72, []⟩, ⟨5, 0, []⟩, ⟨0, -99999, []⟩]
        initial_state)).length ≤ 7 ∧
      (-99999 ≤ t.int32 → t.int32 ≤ 999999 →
        shown_temp (inbox_received_callback [⟨0, 72, []⟩, ⟨5, 0, []⟩, ⟨0, -99999, []⟩]
          initial_state) = fmt_d t.int32 ++ ['f']) :=
  ⟨⟨⟨0, 72, []⟩, by decide, rfl⟩, by decide,
    inbox_temperature_text initial_state [⟨0, 72, []⟩, ⟨5, 0, []⟩, ⟨0, -99999, []⟩]
      ⟨⟨0, 72, []⟩, by decide, rfl⟩⟩

/-- C3: when a message holds a tuple with key 1, let t be the last such tuple;
after the inbox callback the conditions field shows the first 31 characters of
t's string.  The text never exceeds 31 characters and is the string itself,
unmodified, when it has at most 31 characters. -/
theorem inbox_conditions_text (s : State) (msg : Message)
    (h : ∃ u ∈ msg, u.key = KEY_CONDITIONS) :
    ∃ pre t post, msg = pre ++ t :: post ∧ t.key = KEY_CONDITIONS ∧
      (∀ u ∈ post, u.key ≠ KEY_CONDITIONS) ∧
      shown_weather (inbox_received_callback msg s) = t.cstring.take 31 ∧
      (shown_weather (inbox_received_callback msg s)).length ≤ 31 ∧
      (t.cstring.length ≤ 31 → shown_weather (inbox_received_callback msg s) = t.cstring) := by
  obtain ⟨pre, t, post, e, hk, hpost⟩ := exists_last_split (fun u => u.key = KEY_CONDITIONS) msg h
  have hshown : shown_weather (inbox_received_callback msg s) = t.cstring.take 31 := by
    rw [inbox_shown_weather, e, List.foldl_append, List.foldl_cons,
      foldl_conditions_frame post _ hpost, inbox_step_conditions, if_pos hk]
  refine ⟨pre, t, post, e, hk, hpost, hshown, ?_, ?_⟩
  · rw [hshown, List.length_take]
    exact Nat.min_le_left _ _
  · intro hlen
    rw [hshown]
    exact List.take_of_length_le hlen

/-- C3 on a message whose last key-1 tuple carries "Clear": "Clear" is shown. -/
theorem inbox_conditions_text_witness :
    (∃ u ∈ ([⟨1, 0, "Rain".toList⟩, ⟨0, 61, []⟩, ⟨1, 0, "Clear".toList⟩] : Message),
      u.key = KEY_CONDITIONS) ∧
    shown_weather (inbox_received_callback
      [⟨1, 0, "Rain".toList⟩, ⟨0, 61, []⟩, ⟨1, 0, "Clear".toList⟩] initial_state)
        = "Clear".toList ∧
    ∃ pre t post,
      ([⟨1, 0, "Rain".toList⟩, ⟨0, 61, []⟩, ⟨1, 0, "Clear".toList⟩] : Message)
        = pre ++ t :: post ∧
      t.key = KEY_CONDITIONS ∧ (∀ u ∈ post, u.key ≠ KEY_CONDITIONS) ∧
      shown_weather (inbox_received_callback
        [⟨1, 0, "Rain".toList⟩, ⟨0, 61, []⟩, ⟨1, 0, "Clear".toList⟩] initial_state)
          = t.cstring.take 31 ∧
      (shown_weather (inbox_received_callback
        [⟨1, 0, "Rain".toList⟩, ⟨0, 61, []⟩, ⟨1, 0, "Clear".toList⟩] initial_state)).length
          ≤ 31 ∧
      (t.cstring.length ≤ 31 → shown_weather (inbox_received_callback
        [⟨1, 0, "Rain".toList⟩, ⟨0, 61, []⟩, ⟨1, 0, "Clear".toList⟩] initial_state)
          = t.cstring) :=
  ⟨⟨⟨1, 0, "Rain".toList⟩, by decide, rfl⟩, by decide,
    inbox_conditions_text initial_state
      [⟨1, 0, "Rain".toList⟩, ⟨0, 61, []⟩, ⟨1, 0, "Clear".toList⟩]
      ⟨⟨1, 0, "Rain".toList⟩, by decide, rfl⟩⟩

/-- C7: the inbox callback appends to the log exactly one error entry per tuple
whose key is neither 0 nor 1, in message order, each carrying the text
"Key %d not recognized!" formatted with that tuple's key cast to `int`; tuples
with key 0 or 1 add nothing, so the number of new entries is the number of
unrecognised tuples.  For a key below 2^31 the entry shows the key's decimal
rendering, and two 32-bit keys with the same entry text are the same key. -/
theorem inbox_logs_each_unrecognized_key (s : State) (msg : Message) :
    (inbox_received_callback msg s).log =
      s.log ++ (msg.filter unrecognized).map unrecognized_entry ∧
    (inbox_received_callback msg s).log.length =
      s.log.length + msg.countP (fun t => decide (t.key ≠ 0 ∧ t.key ≠ 1)) ∧
    (∀ e ∈ (msg.filter unrecognized).map unrecognized_entry, e.level = AppLogLevel.error) ∧
    (∀ t : Tuple, t.key < 2 ^ 31 →
      (unrecognized_entry t).text =
        "Key ".toList ++ Nat.toDigits 10 t.key ++ " not recognized!".toList) ∧
    (∀ t u : Tuple, t.key < 2 ^ 32 → u.key < 2 ^ 32 →
      (unrecognized_entry t).text = (unrecognized_entry u).text → t.key = u.key) := by
  have hlog : (inbox_received_callback msg s).log =
      s.log ++ (msg.filter unrecognized).map unrecognized_entry := foldl_log msg s
  refine ⟨hlog, ?_, ?_, ?_, ?_⟩
  · rw [hlog, List.length_append, List.length_map, List.countP_eq_length_filter]
    rfl
  · intro e he
    obtain ⟨t, _, rfl⟩ := List.mem_map.mp he
    rfl
  · intro t ht
    have hmod : t.key % 2 ^ 32 = t.key := Nat.mod_eq_of_lt (by omega)
    have hcast : uint32_to_int t.key = (t.key : Int) := by
      unfold uint32_to_int
      rw [hmod, if_pos ht]
    have hneg : ¬ ((t.key : Int) < 0) := by omega
    simp only [unrecognized_entry, hcast, fmt_d, hneg, if_false, Int.toNat_ofNat]
  · intro t u ht hu h
    simp only [unrecognized_entry, List.append_assoc] at h
    have h1 := List.append_cancel_left h
    have h2 := List.append_cancel_right h1
    exact uint32_to_int_injective _ _ ht hu (fmt_d_injective _ _ h2)

/-- C7 on a message with keys 4, 0, 9: two entries are logged, "Key 4 not
recognized!" then "Key 9 not recognized!", and key 4 is below 2^31. -/
theorem inbox_logs_each_unrecognized_key_witness :
    (inbox_received_callback [⟨4, 0, []⟩, ⟨0, 55, []⟩, ⟨9, 0, []⟩] initial_state).log =
      [⟨AppLogLevel.error, "Key 4 not recognized!".toList⟩,
        ⟨AppLogLevel.error, "Key 9 not recognized!".toList⟩] ∧
    (inbox_received_callback [⟨4, 0, []⟩, ⟨0, 55, []⟩, ⟨9, 0, []⟩] initial_state).log.length =
      initial_state.log.length +
        List.countP (fun t => decide (t.key ≠ 0 ∧ t.key ≠ 1))
          ([⟨4, 0, []⟩, ⟨0, 55, []⟩, ⟨9, 0, []⟩] : Message) ∧
    (4 < 2 ^ 31 ∧
      (unrecognized_entry ⟨4, 0, []⟩).text =
        "Key ".toList ++ Nat.toDigits 10 4 ++ " not recognized!".toList) :=
  ⟨by decide,
    (inbox_logs_each_unrecognized_key initial_state
      [⟨4, 0, []⟩, ⟨0, 55, []⟩, ⟨9, 0, []⟩]).2.1,
    by decide,
    (inbox_logs_each_unrecognized_key initial_state
      [⟨4, 0, []⟩, ⟨0, 55, []⟩, ⟨9, 0, []⟩]).2.2.2.1 ⟨4, 0, []⟩ (by decide)⟩

/-- C8: for every state and failure reason, the drop callback and the send
failure callback each append exactly one error entry to the log and change
nothing else: the four shown texts, the sent messages and the open outbox are
as before, so nothing is sent again. -/
theorem failure_callbacks_only_log (s : State) (reason : AppMessageResult) :
    (inbox_dropped_callback reason s =
        { s with log := s.log ++ [⟨AppLogLevel.error, "Message dropped!".toList⟩] } ∧
      outbox_failed_callback reason s =
        { s with log := s.log ++ [⟨AppLogLevel.error, "Outbox send failed!".toList⟩] }) ∧
    (shown_hour (inbox_dropped_callback reason s) = shown_hour s ∧
      shown_minute (inbox_dropped_callback reason s) = shown_minute s ∧
      shown_temp (inbox_dropped_callback reason s) = shown_temp s ∧
      shown_weather (inbox_dropped_callback reason s) = shown_weather s ∧
      (inbox_dropped_callback reason s).sent = s.sent ∧
      (inbox_dropped_callback reason s).outbox = s.outbox) ∧
    (shown_hour (outbox_failed_callback reason s) = shown_hour s ∧
      shown_minute (outbox_failed_callback reason s) = shown_minute s ∧
      shown_temp (outbox_failed_callback reason s) = shown_temp s ∧
      shown_weather (outbox_failed_callback reason s) = shown_weather s ∧
      (outbox_failed_callback reason s).sent = s.sent ∧
      (outbox_failed_callback reason s).outbox = s.outbox) := by
  refine ⟨⟨rfl, rfl⟩, ⟨?_, ?_, ?_, ?_, rfl, rfl⟩, ⟨?_, ?_, ?_, ?_, rfl, rfl⟩⟩ <;>
    exact deref_app_log _ _ _ _

theorem last_with_key_append_singleton (k : Nat) (l : Message) (a : Tuple) :
    last_with_key k (l ++ [a]) = if a.key = k then some a else last_with_key k l := by
  unfold last_with_key
  rw [List.reverse_append, List.reverse_singleton, List.singleton_append, List.find?_cons]
  by_cases h : a.key = k <;> simp [h]

theorem foldl_temperature_last (msg : Message) (s : State) :
    (msg.foldl inbox_step s).temperature_buffer =
      match last_with_key KEY_TEMPERATURE msg with
      | some t => (fmt_d t.int32 ++ ['f']).take 7
      | none => s.temperature_buffer := by
  induction msg using List.reverseRecOn with
  | nil => rfl
  | append_singleton l a ih =>
    rw [List.foldl_append, List.foldl_cons, List.foldl_nil, inbox_step_temperature,
      last_with_key_append_singleton]
    by_cases h : a.key = KEY_TEMPERATURE
    · simp [h]
    · simp only [h, if_false]
      exact ih

theorem foldl_conditions_last (msg : Message) (s : State) :
    (msg.foldl inbox_step s).conditions_buffer =
      match last_with_key KEY_CONDITIONS msg with
      | some t => t.cstring.take 31
      | none => s.conditions_buffer := by
  induction msg using List.reverseRecOn with
  | nil => rfl
  | append_singleton l a ih =>
    rw [List.foldl_append, List.foldl_cons, List.foldl_nil, inbox_step_conditions,
      last_with_key_append_singleton]
    by_cases h : a.key = KEY_CONDITIONS
    · simp [h]
    · simp only [h, if_false]
      exact ih

theorem last_with_key_eq_none (k : Nat) (msg : Message) (h : ∀ u ∈ msg, u.key ≠ k) :
    last_with_key k msg = none := by
  unfold last_with_key
  rw [List.find?_eq_none]
  intro u hu
  simpa using h u (List.mem_reverse.mp hu)

theorem receive_all_append_singleton (l : List Message) (m : Message) (s : State) :
    receive_all (l ++ [m]) s = inbox_received_callback m (receive_all l s) := by
  unfold receive_all
  rw [List.foldl_append]
  rfl

theorem receive_all_temperature (msgs : List Message) (s : State)
    (h : s.temperature_buffer = []) :
    (receive_all msgs s).temperature_buffer = retained_temperature msgs.reverse := by
  induction msgs using List.reverseRecOn with
  | nil => simpa [receive_all, retained_temperature] using h
  | append_singleton l m ih =>
    rw [receive_all_append_singleton, List.reverse_append, List.reverse_singleton,
      List.singleton_append]
    show (m.foldl inbox_step (receive_all l s)).temperature_buffer = _
    rw [foldl_temperature_last, retained_temperature, ih]

theorem receive_all_conditions (msgs : List Message) (s : State)
    (h : s.conditions_buffer = []) :
    (receive_all msgs s).conditions_buffer = retained_conditions msgs.reverse := by
  induction msgs using List.reverseRecOn with
  | nil => simpa [receive_all, retained_conditions] using h
  | append_singleton l m ih =>
    rw [receive_all_append_singleton, List.reverse_append, List.reverse_singleton,
      List.singleton_append]
    show (m.foldl inbox_step (receive_all l s)).conditions_buffer = _
    rw [foldl_conditions_last, retained_conditions, ih]

/-- C4, as the code behaves: for every state and every message whose tuples
all have keys other than 0 and 1, the callback leaves the two stored weather
strings unchanged and makes the temperature and conditions fields show them.
The shown texts are therefore the same as before whenever the fields already
showed the stored strings, which is the case after any earlier inbox
callback. -/
theorem unknown_keys_keep_stored_weather (s : State) (m0 msg : Message)
    (hmsg : ∀ u ∈ msg, u.key ≠ KEY_TEMPERATURE ∧ u.key ≠ KEY_CONDITIONS) :
    ((inbox_received_callback msg s).temperature_buffer = s.temperature_buffer ∧
      (inbox_received_callback msg s).conditions_buffer = s.conditions_buffer) ∧
    (shown_temp (inbox_received_callback msg s) = s.temperature_buffer ∧
      shown_weather (inbox_received_callback msg s) = s.conditions_buffer) ∧
    (s.temp_text = TextRef.temperature_buffer →
      shown_temp (inbox_received_callback msg s) = shown_temp s) ∧
    (s.weather_text = TextRef.conditions_buffer →
      shown_weather (inbox_received_callback msg s) = shown_weather s) ∧
    (shown_temp (inbox_received_callback msg (inbox_received_callback m0 s)) =
        shown_temp (inbox_received_callback m0 s) ∧
      shown_weather (inbox_received_callback msg (inbox_received_callback m0 s)) =
        shown_weather (inbox_received_callback m0 s)) := by
  have ht : ∀ st : State, (msg.foldl inbox_step st).temperature_buffer = st.temperature_buffer :=
    fun st => foldl_temperature_frame msg st (fun u hu => (hmsg u hu).1)
  have hc : ∀ st : State, (msg.foldl inbox_step st).conditions_buffer = st.conditions_buffer :=
    fun st => foldl_conditions_frame msg st (fun u hu => (hmsg u hu).2)
  refine ⟨⟨ht s, hc s⟩, ⟨?_, ?_⟩, ?_, ?_, ?_, ?_⟩
  · rw [inbox_shown_temp, ht]
  · rw [inbox_shown_weather, hc]
  · intro h
    rw [inbox_shown_temp, ht, shown_temp, h]
    rfl
  · intro h
    rw [inbox_shown_weather, hc, shown_weather, h]
    rfl
  · rw [inbox_shown_temp, ht]
    rfl
  · rw [inbox_shown_weather, hc]
    rfl

/-- C4 amended, on a state that already shows "72f" and "Rain": a message with
the single unknown key 5 leaves both texts as they were. -/
theorem unknown_keys_keep_stored_weather_witness :
    (∀ u ∈ ([⟨5, 0, []⟩] : Message), u.key ≠ KEY_TEMPERATURE ∧ u.key ≠ KEY_CONDITIONS) ∧
    shown_temp (inbox_received_callback [⟨5, 0, []⟩]
      (inbox_received_callback [⟨0, 72, []⟩, ⟨1, 0, "Rain".toList⟩] initial_state))
        = "72f".toList ∧
    (shown_temp (inbox_received_callback [⟨5, 0, []⟩]
        (inbox_received_callback [⟨0, 72, []⟩, ⟨1, 0, "Rain".toList⟩] initial_state)) =
      shown_temp (inbox_received_callback [⟨0, 72, []⟩, ⟨1, 0, "Rain".toList⟩] initial_state) ∧
     shown_weather (inbox_received_callback [⟨5, 0, []⟩]
        (inbox_received_callback [⟨0, 72, []⟩, ⟨1, 0, "Rain".toList⟩] initial_state)) =
      shown_weather
        (inbox_received_callback [⟨0, 72, []⟩, ⟨1, 0, "Rain".toList⟩] initial_state)) :=
  ⟨by decide, by decide,
    (unknown_keys_keep_stored_weather initial_state [⟨0, 72, []⟩, ⟨1, 0, "Rain".toList⟩]
      [⟨5, 0, []⟩] (by decide)).2.2.2.2⟩

/-- C4 as stated fails: right after window load the fields show "@ loading @"
and "@@@@"; a message whose only tuple has the unknown key 5 makes both fields
show the empty stored strings instead. -/
theorem unknown_key_replaces_placeholders :
    (∀ u ∈ ([⟨5, 0, []⟩] : Message), u.key ≠ 0 ∧ u.key ≠ 1) ∧
    shown_temp (main_window_load ⟨⟨9, 41⟩, true⟩ initial_state) = "@ loading @".toList ∧
    shown_weather (main_window_load ⟨⟨9, 41⟩, true⟩ initial_state) = "@@@@".toList ∧
    shown_temp (inbox_received_callback [⟨5, 0, []⟩]
      (main_window_load ⟨⟨9, 41⟩, true⟩ initial_state)) = [] ∧
    shown_weather (inbox_received_callback [⟨5, 0, []⟩]
      (main_window_load ⟨⟨9, 41⟩, true⟩ initial_state)) = [] ∧
    ¬ (shown_temp (inbox_received_callback [⟨5, 0, []⟩]
          (main_window_load ⟨⟨9, 41⟩, true⟩ initial_state)) =
        shown_temp (main_window_load ⟨⟨9, 41⟩, true⟩ initial_state) ∧
       shown_weather (inbox_received_callback [⟨5, 0, []⟩]
          (main_window_load ⟨⟨9, 41⟩, true⟩ initial_state)) =
        shown_weather (main_window_load ⟨⟨9, 41⟩, true⟩ initial_state)) := by
  decide

/-- C9 on the code: after window load followed by window unload from program
start, the four text layers and the time font are released but the weather
font handle created by the load is still live. -/
theorem unload_leaves_weather_font_live (host : Host) :
    (main_window_load host initial_state).live =
      [Handle.s_time_font, Handle.s_weather_font, Handle.s_hour_layer,
        Handle.s_minute_layer, Handle.s_temp_layer, Handle.s_weather_layer] ∧
    (main_window_unload (main_window_load host initial_state)).live =
      [Handle.s_weather_font] := by
  have hl := main_window_load_live host initial_state
  refine ⟨hl, ?_⟩
  simp only [main_window_unload, release, hl]
  decide

/-- C10: a message without a key-1 tuple leaves the stored conditions string
unchanged and shows it, and a message without a key-0 tuple leaves the stored
temperature string unchanged and shows it.  Hence, after any sequence of
messages received since window load, each field shows the text written for the
most recent message that carried its key, and the empty string when no message
carried it; a field absent from the latest message shows what the earlier
messages left. -/
theorem inbox_retains_absent_fields (host : Host) (s : State) (earlier : List Message)
    (m : Message) :
    ((∀ u ∈ m, u.key ≠ KEY_CONDITIONS) →
      (inbox_received_callback m s).conditions_buffer = s.conditions_buffer ∧
      shown_weather (inbox_received_callback m s) = s.conditions_buffer) ∧
    ((∀ u ∈ m, u.key ≠ KEY_TEMPERATURE) →
      (inbox_received_callback m s).temperature_buffer = s.temperature_buffer ∧
      shown_temp (inbox_received_callback m s) = s.temperature_buffer) ∧
    (shown_temp (receive_all (earlier ++ [m]) (main_window_load host initial_state)) =
        retained_temperature (m :: earlier.reverse) ∧
      shown_weather (receive_all (earlier ++ [m]) (main_window_load host initial_state)) =
        retained_conditions (m :: earlier.reverse)) ∧
    ((∀ u ∈ m, u.key ≠ KEY_TEMPERATURE) →
      shown_temp (receive_all (earlier ++ [m]) (main_window_load host initial_state)) =
        retained_temperature earlier.reverse) ∧
    ((∀ u ∈ m, u.key ≠ KEY_CONDITIONS) →
      shown_weather (receive_all (earlier ++ [m]) (main_window_load host initial_state)) =
        retained_conditions earlier.reverse) := by
  have hb := main_window_load_buffers host initial_state
  have h1 : shown_temp (receive_all (earlier ++ [m]) (main_window_load host initial_state)) =
      retained_temperature (m :: earlier.reverse) := by
    rw [receive_all_append_singleton, inbox_shown_temp]
    have := receive_all_temperature (earlier ++ [m]) (main_window_load host initial_state)
      (by rw [hb.1]; rfl)
    rw [receive_all_append_singleton] at this
    simpa using this
  have h2 : shown_weather (receive_all (earlier ++ [m]) (main_window_load host initial_state)) =
      retained_conditions (m :: earlier.reverse) := by
    rw [receive_all_append_singleton, inbox_shown_weather]
    have := receive_all_conditions (earlier ++ [m]) (main_window_load host initial_state)
      (by rw [hb.2]; rfl)
    rw [receive_all_append_singleton] at this
    simpa using this
  refine ⟨?_, ?_, ⟨h1, h2⟩, ?_, ?_⟩
  · intro h
    exact ⟨foldl_conditions_frame m s h, by rw [inbox_shown_weather, foldl_conditions_frame m s h]⟩
  · intro h
    exact ⟨foldl_temperature_frame m s h, by rw [inbox_shown_temp, foldl_temperature_frame m s h]⟩
  · intro h
    rw [h1, retained_temperature, last_with_key_eq_none _ _ h]
  · intro h
    rw [h2, retained_conditions, last_with_key_eq_none _ _ h]

/-- C10 on three messages: the first carries 72 and "Rain", the second only
"Sun", the third only an unknown key; the fields then show "72f" and "Sun". -/
theorem inbox_retains_absent_fields_witness :
    (∀ u ∈ ([⟨7, 0, []⟩] : Message), u.key ≠ KEY_TEMPERATURE) ∧
    (∀ u ∈ ([⟨7, 0, []⟩] : Message), u.key ≠ KEY_CONDITIONS) ∧
    retained_temperature
      ([[⟨0, 72, []⟩, ⟨1, 0, "Rain".toList⟩], [⟨1, 0, "Sun".toList⟩]] : List Message).reverse
        = "72f".toList ∧
    retained_conditions
      ([[⟨0, 72, []⟩, ⟨1, 0, "Rain".toList⟩], [⟨1, 0, "Sun".toList⟩]] : List Message).reverse
        = "Sun".toList ∧
    shown_temp (receive_all
      ([[⟨0, 72, []⟩, ⟨1, 0, "Rain".toList⟩], [⟨1, 0, "Sun".toList⟩]] ++ [[⟨7, 0, []⟩]])
      (main_window_load ⟨⟨9, 41⟩, true⟩ initial_state)) =
        retained_temperature
          ([[⟨0, 72, []⟩, ⟨1, 0, "Rain".toList⟩], [⟨1, 0, "Sun".toList⟩]] :
            List Message).reverse ∧
    shown_weather (receive_all
      ([[⟨0, 72, []⟩, ⟨1, 0, "Rain".toList⟩], [⟨1, 0, "Sun".toList⟩]] ++ [[⟨7, 0, []⟩]])
      (main_window_load ⟨⟨9, 41⟩, true⟩ initial_state)) =
        retained_conditions
          ([[⟨0, 72, []⟩, ⟨1, 0, "Rain".toList⟩], [⟨1, 0, "Sun".toList⟩]] :
            List Message).reverse :=
  ⟨by decide, by decide, by decide, by decide,
    (inbox_retains_absent_fields ⟨⟨9, 41⟩, true⟩ initial_state
      [[⟨0, 72, []⟩, ⟨1, 0, "Rain".toList⟩], [⟨1, 0, "Sun".toList⟩]] [⟨7, 0, []⟩]).2.2.2.1
      (by decide),
    (inbox_retains_absent_fields ⟨⟨9, 41⟩, true⟩ initial_state
      [[⟨0, 72, []⟩, ⟨1, 0, "Rain".toList⟩], [⟨1, 0, "Sun".toList⟩]] [⟨7, 0, []⟩]).2.2.2.2
      (by decide)⟩

end NecoFace
